import Mathlib

/-!
# Verification of the HPP calculator core (`utils/calculations.py`)

Shallow embedding of the calculation module of the Kalkulator-UMKM
repository.  Python floats are modelled as rationals (`ℚ`); the Python
`round(x, 2)` is modelled by `round2` below (rounding `x * 100` to the
nearest integer and dividing by 100; at exact half-way points the Mathlib
`round` rounds up where the CPython float rounding is round-half-even —
no concrete value used in this development sits on a half-way point).
Python `dict` ingredient rows (whose keys may be absent or `None`) are
modelled as a structure of `Option` fields, `ing.get(k, d)` becoming
`Option.getD`.  Python `int` output units become `ℤ`.
-/

namespace HPP

/-- Rounding to two decimal places, the Python `round(x, 2)`, over ℚ. -/
def round2 (x : ℚ) : ℚ := (round (x * 100) : ℤ) / 100

/-- An ingredient row as passed to the calculation functions: a Python
dict whose keys may be missing (or `None`), hence `Option` fields.
`line_cost` is present on the processed rows fed to
`get_top_contributors`. -/
structure Ingredient where
  name : Option String := none
  quantity : Option ℚ := none
  unit : Option String := none
  price_per_unit : Option ℚ := none
  line_cost : Option ℚ := none
deriving DecidableEq

/-- Model of `calculate_line_cost` (calculations.py:18-22): 0 for non-positive
quantity or price, else `round(quantity * price_per_unit, 2)`. -/
def calculate_line_cost (quantity price_per_unit : ℚ) : ℚ :=
  if quantity ≤ 0 ∨ price_per_unit ≤ 0 then 0
  else round2 (quantity * price_per_unit)

/-- Truthiness of `ing.get("name")` in Python: the key is present and
the string non-empty (whitespace-only strings are truthy). -/
def nameTruthy (ing : Ingredient) : Bool :=
  ing.name.getD "" != ""

/-- Model of `calculate_total_batch_cost` (calculations.py:25-32): sum of line
costs over rows with a truthy `name`, rounded to 2 decimals. -/
def calculate_total_batch_cost (ingredients : List Ingredient) : ℚ :=
  round2 (((ingredients.filter nameTruthy).map
    (fun ing => calculate_line_cost (ing.quantity.getD 0) (ing.price_per_unit.getD 0))).sum)

/-- Model of `calculate_hpp_per_unit` (calculations.py:35-39). -/
def calculate_hpp_per_unit (total_batch_cost : ℚ) (output_units : ℤ) : ℚ :=
  if output_units ≤ 0 then 0
  else round2 (total_batch_cost / (output_units : ℚ))

/-- Model of `calculate_selling_price` (calculations.py:42-58): markup formula
`hpp + hpp * (margin / 100)`, rounded; 0 when `hpp ≤ 0`. -/
def calculate_selling_price (hpp_per_unit target_margin_percent : ℚ) : ℚ :=
  if hpp_per_unit ≤ 0 then 0
  else round2 (hpp_per_unit + hpp_per_unit * (target_margin_percent / 100))

/-- Model of `calculate_margin_percent` (calculations.py:61-71): margin relative
to the selling price. -/
def calculate_margin_percent (hpp_per_unit selling_price : ℚ) : ℚ :=
  if selling_price ≤ 0 ∨ hpp_per_unit ≤ 0 then 0
  else round2 ((selling_price - hpp_per_unit) / selling_price * 100)

/-- Model of `calculate_margin_from_cost` (calculations.py:74-84): markup
relative to cost. -/
def calculate_margin_from_cost (hpp_per_unit selling_price : ℚ) : ℚ :=
  if hpp_per_unit ≤ 0 then 0
  else round2 ((selling_price - hpp_per_unit) / hpp_per_unit * 100)

/-- Model of `calculate_contribution_percent` (calculations.py:87-91). -/
def calculate_contribution_percent (line_cost total_batch_cost : ℚ) : ℚ :=
  if total_batch_cost ≤ 0 then 0
  else round2 (line_cost / total_batch_cost * 100)

/-- The margin-status classification inlined in `calculate_all`
(calculations.py:159-165). -/
def margin_status (actual_margin target_margin_percent : ℚ) : String :=
  if actual_margin ≥ target_margin_percent then "success"
  else if actual_margin ≥ target_margin_percent - 5 then "warning"
  else "danger"

/-- The Python `str.strip()` operation: drop whitespace from both ends.
(Defined structurally over the character list so that it evaluates in the
kernel; `String.trim` of the core library is extensionally the same but
is defined by well-founded recursion over byte positions.) -/
def pyStrip (s : String) : String :=
  ⟨((s.data.dropWhile Char.isWhitespace).reverse.dropWhile Char.isWhitespace).reverse⟩

/-- A processed ingredient row as built inside `calculate_all`
(calculations.py:123-130). -/
structure ProcessedIngredient where
  name : String
  quantity : ℚ
  unit : String
  price_per_unit : ℚ
  line_cost : ℚ
  contribution_percent : ℚ
deriving DecidableEq

/-- The dictionary returned by `calculate_all` (calculations.py:167-183). -/
structure CalcResult where
  ingredients : List ProcessedIngredient
  material_cost : ℚ
  operational_cost : ℚ
  other_cost : ℚ
  operational_contribution : ℚ
  other_contribution : ℚ
  total_batch_cost : ℚ
  output_units : ℤ
  target_margin_percent : ℚ
  hpp_per_unit : ℚ
  suggested_selling_price : ℚ
  actual_selling_price : ℚ
  actual_margin_percent : ℚ
  gap_vs_target : ℚ
  margin_status : String
deriving DecidableEq

/-- The first loop of `calculate_all` (calculations.py:111-130), for one
row: rows whose stripped name is empty are skipped (`none`); otherwise
the row is processed with defaults `quantity`/`price_per_unit` 0 and
`unit` "unit", and contribution 0 (filled in by the second pass). -/
def processIngredient (ing : Ingredient) : Option ProcessedIngredient :=
  let name := pyStrip (ing.name.getD "")
  if name = "" then none
  else some
    { name := name
      quantity := ing.quantity.getD 0
      unit := ing.unit.getD "unit"
      price_per_unit := ing.price_per_unit.getD 0
      line_cost := calculate_line_cost (ing.quantity.getD 0) (ing.price_per_unit.getD 0)
      contribution_percent := 0 }

/-- Model of `calculate_all` (calculations.py:94-183).  The optional
`actual_selling_price` argument (`None` by default in Python) becomes an
`Option ℚ`; the Python test `if actual_selling_price and actual_selling_price > 0`
is truthy exactly when the argument is supplied and positive. -/
def calculate_all (ingredients : List Ingredient) (output_units : ℤ)
    (target_margin_percent : ℚ) (actual_selling_price : Option ℚ := none)
    (operational_cost : ℚ := 0) (other_cost : ℚ := 0) : CalcResult :=
  let processed := ingredients.filterMap processIngredient
  let material_cost := (processed.map (·.line_cost)).sum
  let total_batch_cost := material_cost + operational_cost + other_cost
  let processed := processed.map (fun ing =>
    { ing with contribution_percent :=
        calculate_contribution_percent ing.line_cost total_batch_cost })
  let operational_contribution :=
    calculate_contribution_percent operational_cost total_batch_cost
  let other_contribution := calculate_contribution_percent other_cost total_batch_cost
  let hpp_per_unit := calculate_hpp_per_unit total_batch_cost output_units
  let suggested_selling_price := calculate_selling_price hpp_per_unit target_margin_percent
  let actual_and_margin : ℚ × ℚ :=
    match actual_selling_price with
    | some p =>
      if 0 < p then (p, calculate_margin_from_cost hpp_per_unit p)
      else (suggested_selling_price, target_margin_percent)
    | none => (suggested_selling_price, target_margin_percent)
  let actual_price := actual_and_margin.1
  let actual_margin := actual_and_margin.2
  let gap_vs_target := round2 (actual_margin - target_margin_percent)
  let status := margin_status actual_margin target_margin_percent
  { ingredients := processed
    material_cost := round2 material_cost
    operational_cost := round2 operational_cost
    other_cost := round2 other_cost
    operational_contribution := operational_contribution
    other_contribution := other_contribution
    total_batch_cost := round2 total_batch_cost
    output_units := output_units
    target_margin_percent := target_margin_percent
    hpp_per_unit := hpp_per_unit
    suggested_selling_price := suggested_selling_price
    actual_selling_price := actual_price
    actual_margin_percent := actual_margin
    gap_vs_target := gap_vs_target
    margin_status := status }

/-- Model of `get_top_contributors` (calculations.py:186-205): keep rows with a
truthy name and `line_cost > 0`, sort descending by `line_cost` (the Python
`sorted` with `reverse=True` is stable, as is `List.mergeSort`), take the
first `top_n` (default 3). -/
def get_top_contributors (ingredients : List Ingredient) (top_n : ℕ := 3) :
    List Ingredient :=
  let valid_ingredients := ingredients.filter
    (fun ing => nameTruthy ing && decide (0 < ing.line_cost.getD 0))
  let sorted_ingredients := valid_ingredients.mergeSort
    (fun a b => decide (b.line_cost.getD 0 ≤ a.line_cost.getD 0))
  sorted_ingredients.take top_n

/-- The per-row validation errors of `validate_ingredients`
(calculations.py:217-244): a row with blank (stripped) name produces no
errors; otherwise name-length, quantity, price and unit errors, in that
order.  `row_num` is the 1-based row index used in the messages. -/
def rowErrors (row_num : ℕ) (ing : Ingredient) : List String :=
  let name := pyStrip (ing.name.getD "")
  if name = "" then []
  else
    (if 100 < name.length then
      ["Baris " ++ toString row_num ++ ": Nama bahan terlalu panjang (max 100 karakter)"]
     else []) ++
    (if (match ing.quantity with
         | none => true
         | some q => decide (q ≤ 0)) then
      ["Baris " ++ toString row_num ++ ": Kuantitas harus lebih dari 0"]
     else []) ++
    (if (match ing.price_per_unit with
         | none => true
         | some p => decide (p ≤ 0)) then
      ["Baris " ++ toString row_num ++ ": Harga per unit harus lebih dari 0"]
     else []) ++
    (if pyStrip (ing.unit.getD "") = "" then
      ["Baris " ++ toString row_num ++ ": Satuan harus diisi"]
     else [])

/-- Model of `validate_ingredients` (calculations.py:208-249): every non-blank row
is validated (all errors are collected); if no non-blank row exists the
single "Minimal harus ada 1 bahan yang valid" error is produced.  Returns
`(is_valid, error_messages)`. -/
def validate_ingredients (ingredients : List Ingredient) : Bool × List String :=
  let rowErrs := ingredients.enum.flatMap (fun p => rowErrors (p.1 + 1) p.2)
  let has_valid_ingredient :=
    ingredients.any (fun ing => pyStrip (ing.name.getD "") != "")
  let errors :=
    if has_valid_ingredient then rowErrs
    else rowErrs ++ ["Minimal harus ada 1 bahan yang valid"]
  (errors.length == 0, errors)

/-- Predicate that `x` is an exact multiple of `0.01` (two decimals suffice). -/
def isCent (x : ℚ) : Prop := ∃ k : ℤ, x = (k : ℚ) / 100

/-- The ingredient of the concrete scenario of the spec:
`{qty:10, unit:"kg", price:40000}`. -/
def ingScenario : Ingredient :=
  { name := some "Bahan", quantity := some 10, unit := some "kg",
    price_per_unit := some 40000 }

/-- Result of `processIngredient` on `ingScenario`. -/
def pScenario : ProcessedIngredient :=
  { name := "Bahan", quantity := 10, unit := "kg", price_per_unit := 40000,
    line_cost := 400000, contribution_percent := 0 }

/-- A row whose name is whitespace-only: truthy for
`calculate_total_batch_cost` but stripped to empty by `calculate_all`. -/
def ingWS : Ingredient :=
  { name := some " ", quantity := some 1, price_per_unit := some 100 }

/-- Processed row named A with line cost 100 (top-contributor example). -/
def ingA : Ingredient := { name := some "A", line_cost := some 100 }

/-- Processed row named B with line cost 500 (top-contributor example). -/
def ingBig : Ingredient := { name := some "B", line_cost := some 500 }

/-- Processed row named C with line cost 200 (top-contributor example). -/
def ingC : Ingredient := { name := some "C", line_cost := some 200 }

/-- Processed row T1, same line cost as `ingT2` (stability example). -/
def ingT1 : Ingredient := { name := some "T1", line_cost := some 7 }

/-- Processed row T2, same line cost as `ingT1` (stability example). -/
def ingT2 : Ingredient := { name := some "T2", line_cost := some 7 }

/-- The validation example row: name "X", quantity 0, price 100, unit "kg". -/
def rowX : Ingredient :=
  { name := some "X", quantity := some 0, unit := some "kg",
    price_per_unit := some 100 }

/-- A second invalid row (positive quantity, price 0) used to show that
validation collects errors across rows. -/
def rowY : Ingredient :=
  { name := some "Y", quantity := some 2, unit := some "kg",
    price_per_unit := some 0 }

/-- A row with whitespace-only name: skipped by validation. -/
def blankRow : Ingredient := { name := some "   " }

theorem round2_zero : round2 0 = 0 := by simp [round2]

theorem round2_isCent (x : ℚ) : isCent (round2 x) := ⟨round (x * 100), rfl⟩

theorem isCent.round2_eq {x : ℚ} (h : isCent x) : round2 x = x := by
  obtain ⟨k, rfl⟩ := h
  rw [round2, div_mul_cancel₀ _ (by norm_num : (100 : ℚ) ≠ 0)]
  rw [round_intCast]

theorem isCent.add {x y : ℚ} (hx : isCent x) (hy : isCent y) : isCent (x + y) := by
  obtain ⟨j, rfl⟩ := hx
  obtain ⟨k, rfl⟩ := hy
  exact ⟨j + k, by push_cast; ring⟩

theorem isCent_zero : isCent 0 := ⟨0, by norm_num⟩

theorem calculate_line_cost_isCent (q p : ℚ) : isCent (calculate_line_cost q p) := by
  rw [calculate_line_cost]
  split_ifs
  · exact isCent_zero
  · exact round2_isCent _

theorem isCent_sum {l : List ℚ} (h : ∀ x ∈ l, isCent x) : isCent l.sum := by
  induction l with
  | nil => simpa using isCent_zero
  | cons a l ih =>
    rw [List.sum_cons]
    exact (h a (List.mem_cons_self a l)).add (ih fun x hx => h x (List.mem_cons_of_mem _ hx))

theorem processIngredient_line_cost_isCent {ing : Ingredient} {pi : ProcessedIngredient}
    (h : processIngredient ing = some pi) : isCent pi.line_cost := by
  simp only [processIngredient] at h
  split_ifs at h
  simp only [Option.some.injEq] at h
  subst h
  exact calculate_line_cost_isCent _ _

theorem pyStrip_of_empty : pyStrip "" = "" := rfl

theorem ne_empty_of_pyStrip_ne_empty {s : String} (h : pyStrip s ≠ "") : s ≠ "" :=
  fun e => h (by rw [e]; rfl)

theorem processIngredient_ingScenario : processIngredient ingScenario = some pScenario := by
  simp only [processIngredient, ingScenario, pScenario, Option.getD]
  norm_num [pyStrip, calculate_line_cost, round2, round_eq]
  decide

/-- C9: division by a non-positive denominator never raises in the core:
`calculate_hpp_per_unit` returns 0 when output units ≤ 0,
`calculate_contribution_percent` returns 0 when total batch cost ≤ 0, and
`calculate_margin_from_cost` returns 0 when hpp ≤ 0.  (Each function is a
total Lean function, so totality holds by construction.) -/
theorem division_guards (total_batch_cost line_cost hpp price : ℚ) (output_units : ℤ) :
    (output_units ≤ 0 → calculate_hpp_per_unit total_batch_cost output_units = 0) ∧
    (total_batch_cost ≤ 0 → calculate_contribution_percent line_cost total_batch_cost = 0) ∧
    (hpp ≤ 0 → calculate_margin_from_cost hpp price = 0) := by
  refine ⟨fun h => ?_, fun h => ?_, fun h => ?_⟩
  · rw [calculate_hpp_per_unit, if_pos h]
  · rw [calculate_contribution_percent, if_pos h]
  · rw [calculate_margin_from_cost, if_pos h]

/-- Witness for C9 at concrete degenerate denominators. -/
theorem division_guards_witness :
    calculate_hpp_per_unit (-1) (-3) = 0 ∧
    calculate_contribution_percent 5 (-1) = 0 ∧
    calculate_margin_from_cost (-2) 7 = 0 :=
  ⟨(division_guards (-1) 5 (-2) 7 (-3)).1 (by norm_num),
   (division_guards (-1) 5 (-2) 7 (-3)).2.1 (by norm_num),
   (division_guards (-1) 5 (-2) 7 (-3)).2.2 (by norm_num)⟩

/-- C3 counterexample: `calculate_hpp_per_unit` rounds to two decimals,
so for total batch cost 100 and 3 output units it returns 33.33, not the
exact quotient 100/3 the claim states. -/
theorem hpp_rounding_counterexample : calculate_hpp_per_unit 100 3 ≠ 100 / 3 := by
  norm_num [calculate_hpp_per_unit, round2, round_eq]

/-- C3 (amended): `hpp` equals `totalBatchCost / outputUnits` rounded to
two decimals when `outputUnits > 0`, and 0 when `outputUnits ≤ 0`. -/
theorem hpp_per_unit_spec (total_batch_cost : ℚ) (output_units : ℤ) :
    calculate_hpp_per_unit total_batch_cost output_units =
      (if 0 < output_units then round2 (total_batch_cost / (output_units : ℚ)) else 0) := by
  rw [calculate_hpp_per_unit]
  rcases lt_or_le 0 output_units with h | h
  · rw [if_neg (not_le.mpr h), if_pos h]
  · rw [if_pos h, if_neg (not_lt.mpr h)]

/-- C2 counterexample: the suggested selling price is rounded to two
decimals, so for hpp 100 and target margin 0.001 % it is 100, not the
exact `hpp + hpp*(target/100) = 100.001` the claim states. -/
theorem selling_price_rounding_counterexample :
    calculate_selling_price 100 (1 / 1000) ≠ 100 + 100 * ((1 / 1000) / 100) := by
  norm_num [calculate_selling_price, round2, round_eq]

/-- C2 (amended): the suggested selling price equals
`round(hpp + hpp*(targetMarginPercent/100), 2)` when `hpp > 0` and 0 when
`hpp ≤ 0`; and on the concrete scenario (one ingredient qty 10 at price
40000, output 50 units, target margin 40, no other costs) `calculate_all`
yields material cost 400000, total batch cost 400000, hpp 8000 and
suggested price 11200. -/
theorem selling_price_spec (hpp target_margin_percent : ℚ) :
    calculate_selling_price hpp target_margin_percent =
      (if 0 < hpp then round2 (hpp + hpp * (target_margin_percent / 100)) else 0) ∧
    (calculate_all [ingScenario] 50 40 none 0 0).material_cost = 400000 ∧
    (calculate_all [ingScenario] 50 40 none 0 0).total_batch_cost = 400000 ∧
    (calculate_all [ingScenario] 50 40 none 0 0).hpp_per_unit = 8000 ∧
    (calculate_all [ingScenario] 50 40 none 0 0).suggested_selling_price = 11200 := by
  refine ⟨?_, ?_⟩
  · rw [calculate_selling_price]
    rcases lt_or_le 0 hpp with h | h
    · rw [if_neg (not_le.mpr h), if_pos h]
    · rw [if_pos h, if_neg (not_lt.mpr h)]
  · norm_num [calculate_all, List.filterMap_cons, List.filterMap_nil,
      processIngredient_ingScenario, pScenario, calculate_hpp_per_unit,
      calculate_selling_price, round2, round_eq]

/-- C6: when no actual selling price is supplied, the returned actual
selling price equals the suggested selling price, the returned actual
margin equals the target margin, and the gap is 0. -/
theorem default_actual_price_spec (ingredients : List Ingredient) (output_units : ℤ)
    (target_margin_percent operational_cost other_cost : ℚ) :
    (calculate_all ingredients output_units target_margin_percent none
        operational_cost other_cost).actual_selling_price =
      (calculate_all ingredients output_units target_margin_percent none
        operational_cost other_cost).suggested_selling_price ∧
    (calculate_all ingredients output_units target_margin_percent none
        operational_cost other_cost).actual_margin_percent = target_margin_percent ∧
    (calculate_all ingredients output_units target_margin_percent none
        operational_cost other_cost).gap_vs_target = 0 := by
  refine ⟨rfl, rfl, ?_⟩
  show round2 (target_margin_percent - target_margin_percent) = 0
  rw [sub_self, round2_zero]

/-- C5: the margin status is exactly one of three values — "success" iff
actual ≥ target, "warning" iff target−5 ≤ actual < target, "danger" iff
actual < target−5 (boundary inclusive on the warning side at target−5);
this is the classification `calculate_all` applies to its actual margin;
and for target 40: actual 35 is warning, 34.999 is danger, 40 is
success. -/
theorem margin_status_spec (actual target : ℚ) :
    (margin_status actual target = "success" ↔ target ≤ actual) ∧
    (margin_status actual target = "warning" ↔ target - 5 ≤ actual ∧ actual < target) ∧
    (margin_status actual target = "danger" ↔ actual < target - 5) ∧
    (∀ (ingredients : List Ingredient) (output_units : ℤ) (price : Option ℚ)
        (operational_cost other_cost : ℚ),
      (calculate_all ingredients output_units target price operational_cost
          other_cost).margin_status =
        margin_status (calculate_all ingredients output_units target price
          operational_cost other_cost).actual_margin_percent target) ∧
    margin_status 35 40 = "warning" ∧
    margin_status (34999 / 1000) 40 = "danger" ∧
    margin_status 40 40 = "success" := by
  refine ⟨?_, ?_, ?_, fun _ _ _ _ _ => rfl, by norm_num [margin_status],
    by norm_num [margin_status], by norm_num [margin_status]⟩
  · rw [margin_status]
    split_ifs with h1 h2
    · exact iff_of_true rfl h1
    · exact iff_of_false (by decide) (not_le.mpr (lt_of_not_ge h1))
    · exact iff_of_false (by decide) (not_le.mpr (lt_of_not_ge h1))
  · rw [margin_status]
    split_ifs with h1 h2
    · refine iff_of_false (by decide) ?_
      rintro ⟨-, hlt⟩
      exact absurd h1 (not_le.mpr hlt)
    · exact iff_of_true rfl ⟨h2, lt_of_not_ge h1⟩
    · refine iff_of_false (by decide) ?_
      rintro ⟨h5, -⟩
      exact absurd h5 h2
  · rw [margin_status]
    split_ifs with h1 h2
    · refine iff_of_false (by decide) ?_
      intro hlt
      have : target ≤ actual := h1
      linarith
    · refine iff_of_false (by decide) ?_
      intro hlt
      have : target - 5 ≤ actual := h2
      linarith
    · exact iff_of_true rfl (lt_of_not_ge h2)

/-- Witness for C5 applying the danger characterisation at a concrete
input. -/
theorem margin_status_spec_witness : margin_status 30 40 = "danger" :=
  (margin_status_spec 30 40).2.2.1.mpr (by norm_num)

/-- C1 counterexample: with a negative operational cost the computed hpp
is negative; the guard in `calculate_margin_from_cost` makes the returned
actual margin 0, while the formula of the claim
`round((actualPrice − hpp)/hpp · 100, 2)` gives −150. -/
theorem actual_margin_formula_counterexample :
    (calculate_all [] 1 0 (some 50) (-100) 0).actual_margin_percent ≠
      round2 ((50 - (calculate_all [] 1 0 (some 50) (-100) 0).hpp_per_unit) /
        (calculate_all [] 1 0 (some 50) (-100) 0).hpp_per_unit * 100) := by
  norm_num [calculate_all, calculate_hpp_per_unit, calculate_margin_from_cost,
    round2, round_eq]

/-- C1 (amended): when an actual selling price p > 0 is supplied, the
returned actual margin is `calculate_margin_from_cost hpp p` — the
markup-on-cost convention, not margin-on-price; whenever the returned
hpp is positive this equals `round((p − hpp)/hpp · 100, 2)` (for
hpp ≤ 0 the guard in `calculate_margin_from_cost` returns 0 instead). -/
theorem actual_margin_markup_spec (ingredients : List Ingredient) (output_units : ℤ)
    (target_margin_percent operational_cost other_cost p : ℚ) (hp : 0 < p) :
    (calculate_all ingredients output_units target_margin_percent (some p)
        operational_cost other_cost).actual_margin_percent =
      calculate_margin_from_cost
        (calculate_all ingredients output_units target_margin_percent (some p)
          operational_cost other_cost).hpp_per_unit p ∧
    (0 < (calculate_all ingredients output_units target_margin_percent (some p)
        operational_cost other_cost).hpp_per_unit →
      (calculate_all ingredients output_units target_margin_percent (some p)
          operational_cost other_cost).actual_margin_percent =
        round2 ((p - (calculate_all ingredients output_units target_margin_percent
            (some p) operational_cost other_cost).hpp_per_unit) /
          (calculate_all ingredients output_units target_margin_percent (some p)
            operational_cost other_cost).hpp_per_unit * 100)) := by
  have h1 : (calculate_all ingredients output_units target_margin_percent (some p)
      operational_cost other_cost).actual_margin_percent =
      calculate_margin_from_cost
        (calculate_all ingredients output_units target_margin_percent (some p)
          operational_cost other_cost).hpp_per_unit p := by
    simp only [calculate_all, hp, if_true]
  refine ⟨h1, fun hh => ?_⟩
  rw [h1, calculate_margin_from_cost, if_neg (not_le.mpr hh)]

/-- Witness for C1 on the concrete scenario with actual price 10000. -/
theorem actual_margin_markup_witness :
    (calculate_all [ingScenario] 50 40 (some 10000) 0 0).actual_margin_percent =
      round2 ((10000 - (calculate_all [ingScenario] 50 40 (some 10000) 0 0).hpp_per_unit) /
        (calculate_all [ingScenario] 50 40 (some 10000) 0 0).hpp_per_unit * 100) := by
  apply (actual_margin_markup_spec [ingScenario] 50 40 0 0 10000 (by norm_num)).2
  norm_num [calculate_all, List.filterMap_cons, List.filterMap_nil,
    processIngredient_ingScenario, pScenario, calculate_hpp_per_unit, round2, round_eq]

/-- C4 counterexample: with operational and other costs of 0.004 each,
the returned (rounded) total batch cost is 0.01 while the sum of the
returned (rounded) components is 0 + 0 + 0. -/
theorem total_cost_rounding_counterexample :
    ¬ ((calculate_all [] 1 0 none (1/250) (1/250)).total_batch_cost =
        (calculate_all [] 1 0 none (1/250) (1/250)).material_cost +
        (calculate_all [] 1 0 none (1/250) (1/250)).operational_cost +
        (calculate_all [] 1 0 none (1/250) (1/250)).other_cost) := by
  norm_num [calculate_all, round2, round_eq]

/-- C4 (amended): whenever the supplied operational and other costs are
exact multiples of 0.01, the returned total batch cost equals the sum of
the returned material, operational and other costs exactly (for sub-cent
inputs the independently rounded fields can disagree, as the
counterexample shows; the pre-rounding total is always the exact sum). -/
theorem total_batch_cost_decomposition (ingredients : List Ingredient)
    (output_units : ℤ) (target_margin_percent : ℚ) (price : Option ℚ)
    (operational_cost other_cost : ℚ)
    (hop : isCent operational_cost) (hoc : isCent other_cost) :
    (calculate_all ingredients output_units target_margin_percent price
        operational_cost other_cost).total_batch_cost =
      (calculate_all ingredients output_units target_margin_percent price
        operational_cost other_cost).material_cost +
      (calculate_all ingredients output_units target_margin_percent price
        operational_cost other_cost).operational_cost +
      (calculate_all ingredients output_units target_margin_percent price
        operational_cost other_cost).other_cost := by
  have hm : isCent (((ingredients.filterMap processIngredient).map
      (fun x => x.line_cost)).sum) := by
    apply isCent_sum
    intro x hx
    simp only [List.mem_map] at hx
    obtain ⟨pi, hpi, rfl⟩ := hx
    obtain ⟨ing, -, hping⟩ := List.mem_filterMap.mp hpi
    exact processIngredient_line_cost_isCent hping
  show round2 (((ingredients.filterMap processIngredient).map
      (fun x => x.line_cost)).sum + operational_cost + other_cost) =
    round2 (((ingredients.filterMap processIngredient).map
      (fun x => x.line_cost)).sum) + round2 operational_cost + round2 other_cost
  rw [((hm.add hop).add hoc).round2_eq, hm.round2_eq, hop.round2_eq, hoc.round2_eq]

/-- Witness for C4 with two-decimal operational (0.5) and other (5)
costs on the concrete scenario. -/
theorem total_batch_cost_decomposition_witness :
    (calculate_all [ingScenario] 50 40 none (1/2) 5).total_batch_cost =
      (calculate_all [ingScenario] 50 40 none (1/2) 5).material_cost +
      (calculate_all [ingScenario] 50 40 none (1/2) 5).operational_cost +
      (calculate_all [ingScenario] 50 40 none (1/2) 5).other_cost :=
  total_batch_cost_decomposition [ingScenario] 50 40 none (1/2) 5
    ⟨50, by norm_num⟩ ⟨500, by norm_num⟩

theorem material_sum_eq_batch_sum (ingredients : List Ingredient)
    (h : ∀ ing ∈ ingredients, ing.name.getD "" ≠ "" → pyStrip (ing.name.getD "") ≠ "") :
    ((ingredients.filterMap processIngredient).map (fun x => x.line_cost)).sum =
      ((ingredients.filter nameTruthy).map
        (fun ing => calculate_line_cost (ing.quantity.getD 0)
          (ing.price_per_unit.getD 0))).sum := by
  induction ingredients with
  | nil => rfl
  | cons ing rest ih =>
    have hrest := ih (fun i hi => h i (List.mem_cons_of_mem _ hi))
    by_cases hs : pyStrip (ing.name.getD "") = ""
    · have hname : ing.name.getD "" = "" := by
        by_contra hne
        exact h ing (List.mem_cons_self _ _) hne hs
      have h2 : nameTruthy ing = false := by
        simp [nameTruthy, hname]
      simp [List.filterMap_cons, List.filter_cons, processIngredient, hs, h2, hrest]
    · have h2 : nameTruthy ing = true := by
        simp only [nameTruthy, bne_iff_ne, ne_eq, decide_eq_true_eq]
        exact ne_empty_of_pyStrip_ne_empty hs
      simp [List.filterMap_cons, List.filter_cons, processIngredient, hs, h2, hrest]

/-- C10 counterexample: on a row whose name is the single blank " " the
two entry points disagree — `calculate_all` strips the name and skips
the row (material cost 0) while `calculate_total_batch_cost` tests only
truthiness and counts it (total 100). -/
theorem material_cost_entry_points_counterexample :
    (calculate_all [ingWS] 1 0 none 0 0).material_cost ≠
      calculate_total_batch_cost [ingWS] := by
  have h1 : processIngredient ingWS = none := rfl
  have h2 : nameTruthy ingWS = true := rfl
  have h3 : ingWS.quantity.getD 0 = 1 := rfl
  have h4 : ingWS.price_per_unit.getD 0 = 100 := rfl
  norm_num [calculate_all, calculate_total_batch_cost, List.filterMap_cons, h1, h2,
    h3, h4, List.filter_cons, calculate_line_cost, round2, round_eq]

/-- C10 (amended): the material cost returned by `calculate_all` equals
`calculate_total_batch_cost` on the same list whenever no ingredient has
a whitespace-only name (a name that is non-empty but strips to empty);
on such rows the two entry points disagree, as the counterexample
shows. -/
theorem material_cost_refines_batch_cost (ingredients : List Ingredient)
    (output_units : ℤ) (target_margin_percent : ℚ) (price : Option ℚ)
    (operational_cost other_cost : ℚ)
    (h : ∀ ing ∈ ingredients, ing.name.getD "" ≠ "" → pyStrip (ing.name.getD "") ≠ "") :
    (calculate_all ingredients output_units target_margin_percent price
        operational_cost other_cost).material_cost =
      calculate_total_batch_cost ingredients := by
  show round2 (((ingredients.filterMap processIngredient).map
      (fun x => x.line_cost)).sum) = calculate_total_batch_cost ingredients
  rw [calculate_total_batch_cost]
  exact congrArg round2 (material_sum_eq_batch_sum ingredients h)

/-- Witness for C10 on the concrete scenario list (no whitespace-only
names). -/
theorem material_cost_refines_batch_cost_witness :
    (calculate_all [ingScenario] 1 0 none 0 0).material_cost =
      calculate_total_batch_cost [ingScenario] := by
  apply material_cost_refines_batch_cost [ingScenario] 1 0 none 0 0
  intro ing hi hne
  rw [List.mem_singleton] at hi
  subst hi
  decide

/-- C7: `get_top_contributors` (with `top_n` defaulting to 3) keeps
exactly the rows with a truthy name and positive line cost, returns at
most N of them sorted descending by line cost, the sort is stable (a
pair in input order with equal line costs stays in that order), and on
rows A, B, C with line costs 100, 500, 200 the top 2 are [B, C]. -/
theorem get_top_contributors_spec :
    (∀ ingredients : List Ingredient,
      get_top_contributors ingredients = get_top_contributors ingredients 3) ∧
    (∀ (ingredients : List Ingredient) (n : ℕ) (x : Ingredient),
      x ∈ get_top_contributors ingredients n →
        x ∈ ingredients ∧ nameTruthy x = true ∧ 0 < x.line_cost.getD 0) ∧
    (∀ (ingredients : List Ingredient) (n : ℕ),
      (get_top_contributors ingredients n).length ≤ n) ∧
    (∀ (ingredients : List Ingredient) (n : ℕ),
      (get_top_contributors ingredients n).Pairwise
        (fun a b => b.line_cost.getD 0 ≤ a.line_cost.getD 0)) ∧
    (∀ (ingredients : List Ingredient) (a b : Ingredient),
      List.Sublist [a, b] (ingredients.filter
        (fun ing => nameTruthy ing && decide (0 < ing.line_cost.getD 0))) →
      a.line_cost.getD 0 = b.line_cost.getD 0 →
      List.Sublist [a, b] (get_top_contributors ingredients ingredients.length)) ∧
    get_top_contributors [ingA, ingBig, ingC] 2 = [ingBig, ingC] := by
  have htrans : ∀ x y z : Ingredient,
      decide (y.line_cost.getD 0 ≤ x.line_cost.getD 0) →
      decide (z.line_cost.getD 0 ≤ y.line_cost.getD 0) →
      decide (z.line_cost.getD 0 ≤ x.line_cost.getD 0) := by
    intro x y z
    simp only [decide_eq_true_eq]
    exact fun h1 h2 => le_trans h2 h1
  have htotal : ∀ x y : Ingredient,
      (decide (y.line_cost.getD 0 ≤ x.line_cost.getD 0) ||
       decide (x.line_cost.getD 0 ≤ y.line_cost.getD 0)) = true := by
    intro x y
    simp only [Bool.or_eq_true, decide_eq_true_eq]
    exact le_total _ _
  refine ⟨fun _ => rfl, ?_, ?_, ?_, ?_, ?_⟩
  · intro ings n x hx
    rw [get_top_contributors] at hx
    have hx2 := List.mem_mergeSort.mp (List.mem_of_mem_take hx)
    obtain ⟨hmem, hP⟩ := List.mem_filter.mp hx2
    obtain ⟨h1, h2⟩ := Bool.and_eq_true_iff.mp hP
    exact ⟨hmem, h1, of_decide_eq_true h2⟩
  · intro ings n
    rw [get_top_contributors]
    exact List.length_take_le _ _
  · intro ings n
    rw [get_top_contributors]
    exact ((List.sorted_mergeSort htrans htotal _).sublist
      (List.take_sublist _ _)).imp (fun h => of_decide_eq_true h)
  · intro ings a b hsub heq
    rw [get_top_contributors]
    have hlen : (List.mergeSort (ings.filter
        (fun ing => nameTruthy ing && decide (0 < ing.line_cost.getD 0)))
        (fun x y => decide (y.line_cost.getD 0 ≤ x.line_cost.getD 0))).length ≤
        ings.length := by
      rw [List.length_mergeSort]
      exact List.length_filter_le _ _
    rw [List.take_of_length_le hlen]
    exact List.pair_sublist_mergeSort htrans htotal
      (decide_eq_true (le_of_eq heq.symm)) hsub
  · have hfilter : [ingA, ingBig, ingC].filter
        (fun ing => nameTruthy ing && decide (0 < ing.line_cost.getD 0)) =
        [ingA, ingBig, ingC] := by decide
    rw [get_top_contributors, hfilter]
    norm_num [List.mergeSort, List.merge, List.splitInTwo, ingA, ingBig, ingC]

/-- Witness for C7: the stability conjunct applied to two rows with
equal line cost 7 — they keep their input order in the output. -/
theorem get_top_contributors_spec_witness :
    List.Sublist [ingT1, ingT2] (get_top_contributors [ingT1, ingT2] 2) := by
  apply get_top_contributors_spec.2.2.2.2.1 [ingT1, ingT2] ingT1 ingT2
  · have hfilter : [ingT1, ingT2].filter
        (fun ing => nameTruthy ing && decide (0 < ing.line_cost.getD 0)) =
        [ingT1, ingT2] := by decide
    rw [hfilter]
  · rfl

/-- C8: `validate_ingredients` skips blank-named rows (their `rowErrors`
are empty), returns exactly the single "at least one valid ingredient"
error when every row is blank, collects all errors across rows (two bad
rows yield both messages, in row order), and on the single row
name "X", quantity 0, price 100, unit "kg" yields exactly one error,
the quantity message. -/
theorem validate_ingredients_spec :
    (∀ ingredients : List Ingredient,
      (∀ ing ∈ ingredients, pyStrip (ing.name.getD "") = "") →
        validate_ingredients ingredients =
          (false, ["Minimal harus ada 1 bahan yang valid"])) ∧
    (∀ (i : ℕ) (ing : Ingredient),
      pyStrip (ing.name.getD "") = "" → rowErrors i ing = []) ∧
    validate_ingredients [rowX] = (false, ["Baris 1: Kuantitas harus lebih dari 0"]) ∧
    validate_ingredients [rowX, rowY] =
      (false, ["Baris 1: Kuantitas harus lebih dari 0",
               "Baris 2: Harga per unit harus lebih dari 0"]) := by
  have hrow : ∀ (i : ℕ) (ing : Ingredient),
      pyStrip (ing.name.getD "") = "" → rowErrors i ing = [] := by
    intro i ing h
    simp [rowErrors, h]
  refine ⟨?_, hrow, by decide, by decide⟩
  intro ings h
  rw [validate_ingredients]
  have h1 : ings.enum.flatMap (fun p => rowErrors (p.1 + 1) p.2) = [] := by
    rw [List.flatMap_eq_nil_iff]
    intro p hp
    have hmem : p.2 ∈ ings :=
      List.getElem?_mem (List.mem_enum_iff_getElem?.mp hp)
    exact hrow _ _ (h p.2 hmem)
  have h2 : ings.any (fun ing => pyStrip (ing.name.getD "") != "") = false := by
    rw [List.any_eq_false]
    intro ing hing
    simp [h ing hing]
  simp [h1, h2]

/-- Witness for C8: a list whose single row has a whitespace-only name
is all-blank, so validation returns exactly the single "no valid
ingredient" error. -/
theorem validate_ingredients_spec_witness :
    validate_ingredients [blankRow] =
      (false, ["Minimal harus ada 1 bahan yang valid"]) := by
  apply validate_ingredients_spec.1 [blankRow]
  intro ing hi
  rw [List.mem_singleton] at hi
  subst hi
  decide

end HPP
